import Mathlib

/-!
Verification development for the Vue adapter of the realtime conversational
client. The adapter source consists of:

  * `utils/location.ts` — pure lookup functions `parseLocation`,
    `getOriginForLocation`, `getLivekitUrlForLocation`, embedded directly as
    Lean functions below;
  * `index.ts` `useConversation` — the session lifecycle controller whose
    `startSession` and `endSession` operations interleave through the
    JavaScript microtask queue.  The controller is embedded as a small-step
    interpreter over a `World` state: the three refs
    (`conversationRef`, `lockRef`, `shouldEndRef`), a table of promises each
    carrying its waiter list in attachment order, a FIFO microtask queue, and
    one continuation state per `startSession` or `endSession` call.  Each
    continuation step runs the corresponding synchronous block of the source
    to its next `await`, exactly as the cooperative single-threaded
    scheduler of JavaScript does;
  * the passthrough operations (`sendUserMessage`, `sendContextualUpdate`,
    getters) of `useConversation` and the scribe hook operations
    (`sendAudio`, `commit`), embedded as pure functions of the slot.

Session handles are modelled by their identifier (a natural number);
`handle.getId()` returns the identifier and `handle.endSession()` is logged
in `closeLog`.  External start promises are resolved or rejected by explicit
scheduler commands, mirroring the deferred-resolution pattern of the test
suite.
-/

namespace ElevenVue

/-! ## Location utilities (utils/location.ts) -/

/-- The four recognized server locations. -/
inductive Location
  | us
  | global
  | euResidency
  | inResidency
deriving DecidableEq

/-- The string tag of a location, as it appears in the TypeScript union type. -/
def Location.toTag : Location → String
  | .us => "us"
  | .global => "global"
  | .euResidency => "eu-residency"
  | .inResidency => "in-residency"

/-- Embedding of `parseLocation`: the switch recognizes the four tags and
returns the input unchanged; every other string falls to the default branch
returning "us" (after a console warning, which has no semantic effect). -/
def parseLocation (location : String) : Location :=
  if location = "eu-residency" then .euResidency
  else if location = "in-residency" then .inResidency
  else if location = "us" then .us
  else if location = "global" then .global
  else .us

/-- Embedding of the omitted-argument form: the TypeScript declaration reads
`parseLocation(location: string = "us")`, so a missing argument is the
default "us". -/
def parseLocationOpt : Option String → Location
  | none => parseLocation "us"
  | some s => parseLocation s

/-- Embedding of `getOriginForLocation`: total lookup in `originMap`. -/
def getOriginForLocation : Location → String
  | .us => "wss://api.elevenlabs.io"
  | .euResidency => "wss://api.eu.residency.elevenlabs.io"
  | .inResidency => "wss://api.in.residency.elevenlabs.io"
  | .global => "wss://api.elevenlabs.io"

/-- Embedding of `getLivekitUrlForLocation`: total lookup in `livekitUrlMap`. -/
def getLivekitUrlForLocation : Location → String
  | .us => "wss://livekit.rtc.elevenlabs.io"
  | .euResidency => "wss://livekit.rtc.eu.residency.elevenlabs.io"
  | .inResidency => "wss://livekit.rtc.in.residency.elevenlabs.io"
  | .global => "wss://livekit.rtc.elevenlabs.io"

/-! ## Session lifecycle controller (useConversation in index.ts)

The controller state is the triple of refs created by `useConversation`:
`conversationRef` (the session slot), `lockRef` (the pending-acquisition
marker, here the identifier of the underlying start promise), and
`shouldEndRef` (the cancellation flag).  `micMuted` and `volume` are the
controlled fields.  `startCalls` counts invocations of
`Conversation.startSession`; `closeLog` records, in order, every invocation
of `endSession` on a handle. -/

/-- Error values with which a `startSession` or `endSession` promise can
reject.  The source throws a plain `Error` with the quoted message in the
cancellation branch; an underlying start rejection is rethrown as is (the
`try` block has no `catch`).  `sessionStartFailed` is the wrapper described
by the specification taxonomy; it is included so that claims about wrapping
can be stated, but the source never produces it. -/
inductive ConvError
  | sessionCancelled (msg : String)
  | underlying (code : Nat)
  | sessionStartFailed (cause : Nat)
deriving DecidableEq

/-- Result of a settled `startSession` call: the session identifier on
success, an error on rejection. -/
inductive BeginResult
  | ok (id : Nat)
  | err (e : ConvError)
deriving DecidableEq

/-- Result of a settled `endSession` call. -/
inductive EndResult
  | ok
  | err (e : ConvError)
deriving DecidableEq

/-- Status of an underlying `Conversation.startSession` promise. -/
inductive PStatus
  | pending
  | resolved (h : Nat)
  | rejected (e : Nat)
deriving DecidableEq

/-- A promise record: its status and, while pending, the tasks awaiting it
in attachment order (the order in which their continuations run once the
promise settles). -/
structure PromiseEntry where
  status : PStatus
  waiters : List Nat
deriving DecidableEq

/-- The value with which a suspended continuation is resumed. -/
inductive Outcome
  | unit
  | ok (h : Nat)
  | err (e : Nat)
deriving DecidableEq

/-- The continuation state of one `startSession` or `endSession` call.

For a `startSession` caller:
  * `joinWait` — suspended at line 183, `await lockRef.value` in the
    join-existing-acquisition branch;
  * `ownerWait` — suspended at line 272, `await lockRef.value` after having
    issued the underlying start call;
  * `cancelCloseWait h` — suspended at line 275,
    `await conversationRef.value.endSession()` in the cancellation branch;
  * `beginFinished r` — the returned promise has settled with `r`.

For an `endSession` caller:
  * `endWaitPending` — suspended at line 301, `await pendingConnection`;
  * `endCloseWait` — suspended at the final await of a handle close (line
    302 or 304) or of `undefined` when there was nothing to close;
  * `endFinished r` — the returned promise has settled with `r`. -/
inductive TaskState
  | joinWait
  | ownerWait
  | cancelCloseWait (h : Nat)
  | beginFinished (r : BeginResult)
  | endWaitPending
  | endCloseWait
  | endFinished (r : EndResult)
deriving DecidableEq

/-- The whole scheduler state. -/
structure World where
  conversationRef : Option Nat
  lockRef : Option Nat
  shouldEndRef : Bool
  micMuted : Option Bool
  volume : Option Nat
  promises : List PromiseEntry
  tasks : List TaskState
  microQ : List (Nat × Outcome)
  startCalls : Nat
  closeLog : List Nat
  micApplied : List (Nat × Bool)
  volApplied : List (Nat × Nat)
deriving DecidableEq

/-- Initial state of a freshly mounted `useConversation` with no controlled
props: empty slot, empty pending marker, cancellation flag false. -/
def init : World := ⟨none, none, false, none, none, [], [], [], 0, [], [], []⟩

/-- A handle reports itself open while `endSession` has never been invoked
on it (model of the external `handle.isOpen()`). -/
def handleOpen (w : World) (h : Nat) : Bool := !(w.closeLog.contains h)

/-- Task `tid` awaits promise `p`: if the promise is pending the task joins
its waiter list, otherwise the continuation is queued immediately with the
settled outcome (awaiting an already settled promise still suspends until
the next microtask checkpoint). -/
def awaitP (w : World) (p : Nat) (tid : Nat) : World :=
  match w.promises.get? p with
  | none => w
  | some entry =>
    match entry.status with
    | .pending =>
        { w with promises := w.promises.set p ⟨.pending, entry.waiters ++ [tid]⟩ }
    | .resolved h => { w with microQ := w.microQ ++ [(tid, .ok h)] }
    | .rejected e => { w with microQ := w.microQ ++ [(tid, .err e)] }

/-- The acquisition path of `startSession` (reached when the open-slot
short-circuit did not fire): join an in-flight acquisition if `lockRef` is
set (line 182), otherwise reset the cancellation flag (line 187), issue the
underlying start call, store its promise in `lockRef` (line 198), and await
it (line 272). -/
def beginAcquire (w : World) (tid : Nat) : World :=
  match w.lockRef with
  | some p => awaitP { w with tasks := w.tasks ++ [.joinWait] } p tid
  | none =>
    let pid := w.promises.length
    let w1 := { w with
      shouldEndRef := false,
      promises := w.promises ++ [⟨.pending, []⟩],
      lockRef := some pid,
      startCalls := w.startCalls + 1,
      tasks := w.tasks ++ [.ownerWait] }
    awaitP w1 pid tid

/-- Synchronous prologue of `startSession` (lines 177-272): if the slot
holds an open handle return its identifier at once (lines 178-180),
otherwise take the acquisition path. -/
def callBegin (w : World) : World :=
  let tid := w.tasks.length
  match w.conversationRef with
  | some h =>
    if handleOpen w h then
      { w with tasks := w.tasks ++ [.beginFinished (.ok h)] }
    else beginAcquire w tid
  | none => beginAcquire w tid

/-- Synchronous prologue of `endSession` (lines 294-305): set the
cancellation flag, capture `lockRef` and `conversationRef`, clear
`conversationRef` (and only it — the source never assigns to `lockRef`
here), then await the pending acquisition if one was captured, else invoke
and await the close of a captured handle, else await `undefined`. -/
def callEnd (w : World) : World :=
  let tid := w.tasks.length
  let pendingConnection := w.lockRef
  let conversation := w.conversationRef
  let w1 := { w with shouldEndRef := true, conversationRef := none }
  match pendingConnection with
  | some p => awaitP { w1 with tasks := w1.tasks ++ [.endWaitPending] } p tid
  | none =>
    match conversation with
    | some h =>
      { w1 with
        closeLog := w1.closeLog ++ [h],
        tasks := w1.tasks ++ [.endCloseWait],
        microQ := w1.microQ ++ [(tid, .unit)] }
    | none =>
      { w1 with
        tasks := w1.tasks ++ [.endCloseWait],
        microQ := w1.microQ ++ [(tid, .unit)] }

/-- The external environment resolves start promise `p` with a handle `h`:
all waiters move to the microtask queue in attachment order. -/
def resolveP (w : World) (p : Nat) (h : Nat) : World :=
  match w.promises.get? p with
  | none => w
  | some entry =>
    match entry.status with
    | .pending =>
      { w with
        promises := w.promises.set p ⟨.resolved h, []⟩,
        microQ := w.microQ ++ entry.waiters.map (fun t => (t, Outcome.ok h)) }
    | _ => w

/-- The external environment rejects start promise `p` with error code `e`. -/
def rejectP (w : World) (p : Nat) (e : Nat) : World :=
  match w.promises.get? p with
  | none => w
  | some entry =>
    match entry.status with
    | .pending =>
      { w with
        promises := w.promises.set p ⟨.rejected e, []⟩,
        microQ := w.microQ ++ entry.waiters.map (fun t => (t, Outcome.err e)) }
    | _ => w

/-- Resume task `tid` with outcome `o`, running the corresponding
synchronous block of the source to its next suspension point or to
completion. -/
def resumeTask (w : World) (tid : Nat) (o : Outcome) : World :=
  match w.tasks.get? tid with
  | none => w
  | some ts =>
    match ts, o with
    | .joinWait, .ok h =>
      -- line 184: return conversation.getId()
      { w with tasks := w.tasks.set tid (.beginFinished (.ok h)) }
    | .joinWait, .err e =>
      -- the awaited promise rejected; the join branch is outside the
      -- try/finally, so the raw error propagates and lockRef is untouched
      { w with tasks := w.tasks.set tid (.beginFinished (.err (.underlying e))) }
    | .ownerWait, .err e =>
      -- the await at line 272 rethrows; no catch; the finally at line 290
      -- clears lockRef; the raw error propagates to the caller
      { w with
        lockRef := none,
        tasks := w.tasks.set tid (.beginFinished (.err (.underlying e))) }
    | .ownerWait, .ok h =>
      -- line 272: conversationRef.value = the resolved handle
      let w1 := { w with conversationRef := some h }
      if w1.shouldEndRef then
        -- line 275: invoke endSession on the handle and await it
        { w1 with
          closeLog := w1.closeLog ++ [h],
          tasks := w1.tasks.set tid (.cancelCloseWait h),
          microQ := w1.microQ ++ [(tid, .unit)] }
      else
        -- lines 281-288: apply controlled fields, return the identifier;
        -- the finally at line 290 clears lockRef
        let w2 := match w1.micMuted with
          | some b => { w1 with micApplied := w1.micApplied ++ [(h, b)] }
          | none => w1
        let w3 := match w2.volume with
          | some v => { w2 with volApplied := w2.volApplied ++ [(h, v)] }
          | none => w2
        { w3 with
          lockRef := none,
          tasks := w3.tasks.set tid (.beginFinished (.ok h)) }
    | .cancelCloseWait _, _ =>
      -- lines 276-278: clear both refs and throw; the finally at line 290
      -- clears lockRef again; the promise rejects with the quoted message
      { w with
        conversationRef := none,
        lockRef := none,
        tasks := w.tasks.set tid
          (.beginFinished (.err (.sessionCancelled "Session cancelled during connection"))) }
    | .endWaitPending, .ok h =>
      -- line 302: invoke endSession on the resolved handle and await it
      { w with
        closeLog := w.closeLog ++ [h],
        tasks := w.tasks.set tid .endCloseWait,
        microQ := w.microQ ++ [(tid, .unit)] }
    | .endWaitPending, .err e =>
      -- the await at line 301 rethrows; endSession rejects with the raw error
      { w with tasks := w.tasks.set tid (.endFinished (.err (.underlying e))) }
    | .endCloseWait, _ => { w with tasks := w.tasks.set tid (.endFinished .ok) }
    | _, _ => w

/-- Run one microtask: pop the head of the queue and resume that task. -/
def runMicro (w : World) : World :=
  match w.microQ with
  | [] => w
  | (tid, o) :: rest => resumeTask { w with microQ := rest } tid o

/-- One scheduler command: an external call of `startSession` or
`endSession` (whose synchronous prologue runs immediately), an external
settlement of an underlying start promise, or one microtask step. -/
inductive Cmd
  | begin0
  | end0
  | resolve (p h : Nat)
  | reject (p e : Nat)
  | micro
deriving DecidableEq

/-- Small-step transition of the scheduler. -/
def step (w : World) : Cmd → World
  | .begin0 => callBegin w
  | .end0 => callEnd w
  | .resolve p h => resolveP w p h
  | .reject p e => rejectP w p e
  | .micro => runMicro w

/-- Run a command sequence from the initial state. -/
def run (cmds : List Cmd) : World := cmds.foldl step init

/-! ## Passthrough data-plane operations

`useConversation` message operations use optional chaining on the slot:
with no active handle they complete silently, delivering nothing and
throwing nothing.  The scribe hook operations `sendAudio` and `commit`
instead throw when no connection exists. -/

/-- Error thrown by the scribe data-plane operations. -/
inductive SendError
  | notConnected (msg : String)
deriving DecidableEq

/-- Embedding of the scribe hook `sendAudio`: throws when `connectionRef` is
empty, otherwise forwards the audio chunk to the connection.  The result
lists the (connection, payload) deliveries performed. -/
def sendAudio (conn : Option Nat) (audioBase64 : String) :
    Except SendError (List (Nat × String)) :=
  match conn with
  | none => .error (.notConnected "Not connected to Scribe")
  | some c => .ok [(c, audioBase64)]

/-- Embedding of the scribe hook `commit`: throws when `connectionRef` is
empty, otherwise commits on the connection. -/
def scribeCommit (conn : Option Nat) : Except SendError (List Nat) :=
  match conn with
  | none => .error (.notConnected "Not connected to Scribe")
  | some c => .ok [c]

/-- Embedding of `sendUserMessage` in `useConversation`: optional chaining
on the slot, so an empty slot completes with no delivery and no error. -/
def sendUserMessage (slot : Option Nat) (text : String) :
    Except SendError (List (Nat × String)) :=
  .ok (match slot with
    | none => []
    | some h => [(h, text)])

/-- Embedding of `sendContextualUpdate` in `useConversation`: same optional
chaining pattern as `sendUserMessage`. -/
def sendContextualUpdate (slot : Option Nat) (text : String) :
    Except SendError (List (Nat × String)) :=
  .ok (match slot with
    | none => []
    | some h => [(h, text)])

/-- Embedding of the informational getter `getId`: optional chaining, so an
empty slot yields `undefined` (here `none`). -/
def getId (slot : Option Nat) : Option Nat := slot

/-- Embedding of the informational getter `getInputVolume`: the source
returns `conversationRef.value?.getInputVolume() ?? 0`, so an empty slot
yields the default 0.  `vols` is the volume reported by each handle. -/
def getInputVolume (slot : Option Nat) (vols : Nat → Nat) : Nat :=
  match slot with
  | none => 0
  | some h => vols h

/-- Classifies an operation result as a thrown error. -/
def isSendError : Except SendError (List (Nat × String)) → Bool
  | .error _ => true
  | .ok _ => false

/-! ## Scenario traces

These command sequences replay the interleavings exercised by the test
suite and the specification scenarios.  Promise 0 is the first underlying
start call; handle identifiers stand for the session ids of the mocks. -/

/-- Cancel-during-connect: `startSession` is called, `endSession` is called
while the underlying start promise 0 is still pending, then the promise
resolves with handle 1 and the microtask queue drains (four microtasks:
owner resumption, end resumption, owner close-await, end close-await). -/
def cancelTrace : List Cmd :=
  [.begin0, .end0, .resolve 0 1, .micro, .micro, .micro, .micro]

/-- Cancel-during-connect with a second `startSession` caller that joined
the in-flight acquisition before `endSession` ran. -/
def joinCancelTrace : List Cmd :=
  [.begin0, .begin0, .end0, .resolve 0 1, .micro, .micro, .micro, .micro, .micro]

/-- Two concurrent `startSession` calls, the second joining the pending
acquisition, which then resolves with handle 5. -/
def joinTrace : List Cmd := [.begin0, .begin0, .resolve 0 5, .micro, .micro]

/-- A completed `startSession` followed by a second `startSession` that
short-circuits on the open slot. -/
def openTrace : List Cmd := [.begin0, .resolve 0 5, .micro, .begin0]

/-- A `startSession` whose underlying start promise rejects with error
code 7. -/
def failTrace : List Cmd := [.begin0, .reject 0 7, .micro]

/-- The cancel-during-connect scenario followed by a fresh `startSession`
whose start promise 1 resolves with handle 2 (the lock-reset regression
test of the suite). -/
def reuseTrace : List Cmd := cancelTrace ++ [.begin0, .resolve 1 2, .micro]

/-- The pending-implies-empty-slot invariant claimed by the specification. -/
def pendingImpliesEmpty (w : World) : Prop :=
  w.lockRef = none ∨ w.conversationRef = none

instance (w : World) : Decidable (pendingImpliesEmpty w) :=
  inferInstanceAs (Decidable (w.lockRef = none ∨ w.conversationRef = none))

/-! ## Claims -/

/-- Claim C1: when `endSession` runs while the underlying start call of a
`startSession` is still pending, the `startSession` whose continuation
installed the handle rejects with the cancellation error carrying the
message "Session cancelled during connection", the close of the newly
obtained handle is invoked, the session slot and the pending marker are
both empty afterwards, and the handle is not exposed to that caller (its
result is the rejection, not an identifier). -/
theorem cancelDuringConnect_rejects_and_clears :
    (run cancelTrace).tasks.get? 0 =
      some (TaskState.beginFinished (BeginResult.err
        (ConvError.sessionCancelled "Session cancelled during connection"))) ∧
    (run cancelTrace).closeLog.contains 1 = true ∧
    (run cancelTrace).conversationRef = none ∧
    (run cancelTrace).lockRef = none := by decide

/-- Claim C2 counterexample: in the cancel-during-connect interleaving with
a second caller that joined the in-flight acquisition by awaiting the
pending marker, that second caller (task 1) resolves successfully with the
identifier of handle 1 — the very handle the cancelling `endSession` closes
— instead of rejecting with the cancellation error. -/
theorem joiner_resolves_with_discarded_id :
    (run joinCancelTrace).tasks.get? 1 =
      some (TaskState.beginFinished (BeginResult.ok 1)) ∧
    (run joinCancelTrace).closeLog.contains 1 = true := by decide

/-- Claim C2 (amended): only the caller whose `startSession` initiated the
acquisition rejects with the cancellation error when a concurrent
`endSession` supersedes it; a second caller that joined the in-flight
acquisition by awaiting the pending marker resolves successfully with the
identifier of the discarded session, while the slot ends empty and the
handle is closed. -/
theorem cancel_observed_only_by_owner :
    (run joinCancelTrace).tasks.get? 0 =
      some (TaskState.beginFinished (BeginResult.err
        (ConvError.sessionCancelled "Session cancelled during connection"))) ∧
    (run joinCancelTrace).tasks.get? 1 =
      some (TaskState.beginFinished (BeginResult.ok 1)) ∧
    (run joinCancelTrace).tasks.get? 2 = some (TaskState.endFinished EndResult.ok) ∧
    (run joinCancelTrace).closeLog = [1, 1] ∧
    (run joinCancelTrace).conversationRef = none := by decide

/-- Claim C3 counterexample: in the cancel-during-connect scenario the
close of the resolved handle is invoked twice (once by the cancelled
`startSession` continuation at line 275, once by `endSession` at line 302),
so the count of close invocations on handle 1 is 2, not 1 as claimed. -/
theorem close_invoked_twice_in_cancel :
    (run cancelTrace).closeLog.count 1 ≠ 1 ∧
    (run cancelTrace).closeLog.count 1 = 2 := by decide

/-- Claim C3 (amended): in the cancel-during-connect scenario the resulting
handle close operation is invoked exactly twice across the combined
execution — once by the cancelled `startSession` continuation and once by
`endSession` after awaiting the pending acquisition — while `startSession`
rejects with the cancellation error and the slot is empty afterward. -/
theorem close_invoked_exactly_twice :
    (run cancelTrace).closeLog = [1, 1] ∧
    (run cancelTrace).tasks.get? 0 =
      some (TaskState.beginFinished (BeginResult.err
        (ConvError.sessionCancelled "Session cancelled during connection"))) ∧
    (run cancelTrace).conversationRef = none := by decide

/-- Claim C4: `startSession` is idempotent while a session is open or an
acquisition is in flight.  In the join interleaving (second call while the
first acquisition is pending) and in the open-slot interleaving (second
call after the first completed), exactly one underlying start call is
issued and both callers receive the identifier of handle 5. -/
theorem begin_idempotent :
    (run joinTrace).startCalls = 1 ∧
    (run joinTrace).tasks =
      [TaskState.beginFinished (BeginResult.ok 5),
       TaskState.beginFinished (BeginResult.ok 5)] ∧
    (run openTrace).startCalls = 1 ∧
    (run openTrace).tasks =
      [TaskState.beginFinished (BeginResult.ok 5),
       TaskState.beginFinished (BeginResult.ok 5)] := by decide

/-- Claim C5 counterexample: immediately after the synchronous prologue of
`endSession` (called while start promise 0 is pending), the pending marker
still holds promise 0 — only the slot was cleared — so the state is exactly
the half-cleared state the claim rules out. -/
theorem end_prologue_leaves_pending_set :
    (run [Cmd.begin0, Cmd.end0]).lockRef = some 0 ∧
    (run [Cmd.begin0, Cmd.end0]).conversationRef = none ∧
    (run [Cmd.begin0, Cmd.end0]).shouldEndRef = true := by decide

/-- Claim C5 (amended): the synchronous prologue of `endSession` sets the
cancellation flag, captures both the pending marker and the slot, but
clears only the slot before its first suspension point; the pending marker
remains set, a `startSession` arriving in that window observes it and joins
it, and the marker is cleared only later by the finally step of the
cancelled `startSession`. -/
theorem end_prologue_clears_slot_only :
    (run [Cmd.begin0, Cmd.end0]).shouldEndRef = true ∧
    (run [Cmd.begin0, Cmd.end0]).conversationRef = none ∧
    (run [Cmd.begin0, Cmd.end0]).lockRef = some 0 ∧
    (run [Cmd.begin0, Cmd.end0, Cmd.begin0]).tasks.get? 2 = some TaskState.joinWait ∧
    (run cancelTrace).lockRef = none := by decide

/-- Claim C6 counterexample: at the suspension point inside the cancelled
`startSession` continuation (after the resolve of promise 0 and one
microtask of the cancel-during-connect interleaving), the pending marker
holds promise 0 and the slot simultaneously holds handle 1 — a reachable
state in which the handle is both in flight and installed. -/
theorem pending_and_slot_simultaneously_set :
    (run (cancelTrace.take 4)).lockRef = some 0 ∧
    (run (cancelTrace.take 4)).conversationRef = some 1 := by decide

/-- Claim C6 (amended): along the cancel-during-connect interleaving the
implication (pending marker non-empty implies slot empty) holds at every
state except the window of the cancelled `startSession` continuation —
from its resumption, which re-installs the resolved handle while the
pending marker is still set, until its cleanup after awaiting the handle
close — and at the end of the interleaving both are empty. -/
theorem pending_slot_invariant_scoped :
    pendingImpliesEmpty (run (cancelTrace.take 0)) ∧
    pendingImpliesEmpty (run (cancelTrace.take 1)) ∧
    pendingImpliesEmpty (run (cancelTrace.take 2)) ∧
    pendingImpliesEmpty (run (cancelTrace.take 3)) ∧
    (run (cancelTrace.take 4)).lockRef = some 0 ∧
    (run (cancelTrace.take 4)).conversationRef = some 1 ∧
    (run (cancelTrace.take 4)).tasks.get? 0 = some (TaskState.cancelCloseWait 1) ∧
    (run (cancelTrace.take 5)).lockRef = some 0 ∧
    (run (cancelTrace.take 5)).conversationRef = some 1 ∧
    (run (cancelTrace.take 5)).tasks.get? 0 = some (TaskState.cancelCloseWait 1) ∧
    pendingImpliesEmpty (run (cancelTrace.take 6)) ∧
    pendingImpliesEmpty (run (cancelTrace.take 7)) ∧
    (run cancelTrace).lockRef = none ∧
    (run cancelTrace).conversationRef = none := by decide

/-- Claim C7 counterexample: when the underlying start call rejects with
error code 7, `startSession` rejects with the raw underlying error, not
with a wrapper of the underlying cause as claimed. -/
theorem start_failure_not_wrapped :
    (run failTrace).tasks.get? 0 ≠
      some (TaskState.beginFinished (BeginResult.err (ConvError.sessionStartFailed 7))) ∧
    (run failTrace).tasks.get? 0 =
      some (TaskState.beginFinished (BeginResult.err (ConvError.underlying 7))) := by decide

/-- Claim C7 (amended): when the underlying start call rejects,
`startSession` rejects with the raw underlying error (there is no wrapping
catch block), the session slot is left empty, and the pending marker is
cleared by the finally step that runs in all cases. -/
theorem start_failure_raw_propagation :
    (run failTrace).tasks.get? 0 =
      some (TaskState.beginFinished (BeginResult.err (ConvError.underlying 7))) ∧
    (run failTrace).conversationRef = none ∧
    (run failTrace).lockRef = none := by decide

/-- Claim C8: after a cancel-during-connect scenario completes, a fresh
`startSession` resets the cancellation flag at the top of its acquisition
path (true after the scenario, false once the fresh call has run its
prologue), issues a second underlying start call (exactly two in total),
succeeds with the new session identifier 2, and installs the new handle. -/
theorem fresh_begin_after_cancellation :
    (run cancelTrace).shouldEndRef = true ∧
    (run (cancelTrace ++ [Cmd.begin0])).shouldEndRef = false ∧
    (run reuseTrace).startCalls = 2 ∧
    (run reuseTrace).tasks.get? 2 = some (TaskState.beginFinished (BeginResult.ok 2)) ∧
    (run reuseTrace).conversationRef = some 2 := by decide

/-- Claim C9 counterexample: `sendUserMessage` invoked with no active
handle completes successfully with no delivery and throws nothing — it does
not fail loudly with a not-connected error as claimed for every mutating
data-plane operation. -/
theorem sendUserMessage_silently_noops :
    sendUserMessage none "hello" = Except.ok [] ∧
    isSendError (sendUserMessage none "hello") = false := ⟨rfl, rfl⟩

/-- Claim C9 (amended): the scribe data-plane operations `sendAudio` and
`commit` fail loudly with a not-connected error when no connection exists,
while the conversation message operations `sendUserMessage` and
`sendContextualUpdate` silently no-op with no handle, and informational
getters return a default or `none`; with a handle present the operations
act on it. -/
theorem data_plane_error_behaviour :
    sendAudio none "aGk=" = Except.error (SendError.notConnected "Not connected to Scribe") ∧
    scribeCommit none = Except.error (SendError.notConnected "Not connected to Scribe") ∧
    sendUserMessage none "x" = Except.ok [] ∧
    sendContextualUpdate none "x" = Except.ok [] ∧
    getId none = none ∧
    getInputVolume none (fun _ => 9) = 0 ∧
    sendUserMessage (some 3) "x" = Except.ok [(3, "x")] ∧
    sendAudio (some 4) "aGk=" = Except.ok [(4, "aGk=")] :=
  ⟨rfl, rfl, rfl, rfl, rfl, rfl, rfl, rfl⟩

/-- Claim C10: `parseLocation` is total over strings, returns each of the
four recognized tags unchanged, returns "us" for every other string and for
the omitted argument, and `getOriginForLocation` and
`getLivekitUrlForLocation` are total over the location type, with "global"
and "us" mapped to identical URLs. -/
theorem parseLocation_total_and_maps :
    (∀ s : String, s ≠ "us" → s ≠ "global" → s ≠ "eu-residency" →
      s ≠ "in-residency" → parseLocation s = Location.us) ∧
    parseLocation "us" = Location.us ∧
    parseLocation "global" = Location.global ∧
    parseLocation "eu-residency" = Location.euResidency ∧
    parseLocation "in-residency" = Location.inResidency ∧
    (parseLocation "us").toTag = "us" ∧
    (parseLocation "global").toTag = "global" ∧
    (parseLocation "eu-residency").toTag = "eu-residency" ∧
    (parseLocation "in-residency").toTag = "in-residency" ∧
    parseLocationOpt none = Location.us ∧
    getOriginForLocation Location.global = getOriginForLocation Location.us ∧
    getLivekitUrlForLocation Location.global = getLivekitUrlForLocation Location.us ∧
    (∀ l : Location,
      getOriginForLocation l ∈ ["wss://api.elevenlabs.io",
        "wss://api.eu.residency.elevenlabs.io",
        "wss://api.in.residency.elevenlabs.io"] ∧
      getLivekitUrlForLocation l ∈ ["wss://livekit.rtc.elevenlabs.io",
        "wss://livekit.rtc.eu.residency.elevenlabs.io",
        "wss://livekit.rtc.in.residency.elevenlabs.io"]) := by
  refine ⟨?_, by decide, by decide, by decide, by decide, by decide, by decide,
    by decide, by decide, by decide, by decide, by decide, ?_⟩
  · intro s h1 h2 h3 h4
    simp [parseLocation, h1, h2, h3, h4]
  · intro l
    cases l <;> exact ⟨by decide, by decide⟩

/-- Witness for claim C10: the default branch at the concrete unrecognized
input "france". -/
theorem parseLocation_total_and_maps_witness : parseLocation "france" = Location.us :=
  parseLocation_total_and_maps.1 "france" (by decide) (by decide) (by decide) (by decide)

end ElevenVue
